import Mathlib

/-!
Shallow embedding of the terraform-provider-microsoft-adcs repository:
the certificate resource lifecycle (internal/provider — certificateResource
Create/Read/Update), the certificate data source (certificateDataSource.Read),
and the provider configuration resolver (MicrosoftADCSProvider.Configure).
Remote calls made by each operation are recorded in an explicit trace so that
claims about the number and arguments of client invocations can be stated.
-/

/-- Embeds the terraform-plugin-framework types.String: a value is null,
unknown, or a known string. -/
inductive TFString where
  | null
  | unknown
  | value (s : String)
deriving DecidableEq, Repr

/-- Embeds types.String.ValueString(): the known value, or "" when null or
unknown. -/
def TFString.valueString : TFString → String
  | .value s => s
  | _ => ""

/-- Embeds types.String.IsNull(). -/
def TFString.isNull : TFString → Bool
  | .null => true
  | _ => false

/-- Embeds types.String.IsUnknown(). -/
def TFString.isUnknown : TFString → Bool
  | .unknown => true
  | _ => false

/-- Embeds the terraform-plugin-framework types.Bool. -/
inductive TFBool where
  | null
  | unknown
  | value (b : Bool)
deriving DecidableEq, Repr

/-- Embeds types.Bool.ValueBool(): the known value, or false when null or
unknown. -/
def TFBool.valueBool : TFBool → Bool
  | .value b => b
  | _ => false

/-- Embeds the client library result of RequestCertificate and
RetrieveCertificates: an identifier, a base64 leaf certificate and a base64
chain (all Go strings). -/
structure Certificates where
  ID : String
  CertificateB64 : String
  CertificateChainB64 : String
deriving DecidableEq, Repr

/-- The external ADCS client handle, as the two operations the repository
invokes on it; each may fail with a Go error (its message). -/
structure ADCSClient where
  RequestCertificate : String → String → String → Except String Certificates
  RetrieveCertificates : String → Except String Certificates

/-- One remote call made through the client handle, with the arguments
passed at the call site. -/
inductive RemoteCall where
  | requestCertificate (csr template attr : String)
  | retrieveCertificates (id : String)
deriving DecidableEq, Repr

/-- The outcome of a resource or data-source operation: the state set into
the response (none when the state-set step is never reached) and the
diagnostics added, each as a (summary, detail) pair. -/
structure Response (α : Type) where
  state : Option α
  diagnostics : List (String × String)
deriving DecidableEq, Repr

/-- Embeds certificateCreateModel of the certificate resource. -/
structure certificateCreateModel where
  ID : TFString
  Attributes : TFString
  CSR : TFString
  Template : TFString
  CertificateB64 : TFString
  CertificateChainB64 : TFString
  LastUpdated : TFString
deriving DecidableEq, Repr

/-- Embeds certificateModel of the certificate data source. -/
structure certificateModel where
  ID : TFString
  CertificateB64 : TFString
  CertificateChainB64 : TFString
deriving DecidableEq, Repr

/-- Embeds strings.Replace(s, "\x5cr", "", -1) on the character list: every
leftmost non-overlapping occurrence of the two-character sequence
backslash-r is removed, scanning left to right. -/
def removeBSr : List Char → List Char
  | [] => []
  | [c] => [c]
  | c :: r :: rest =>
    if c == '\\' && r == 'r' then removeBSr rest
    else c :: removeBSr (r :: rest)

/-- Decides whether a character list contains the two-character sequence
backslash-r as adjacent characters. -/
def hasBSr : List Char → Bool
  | [] => false
  | [_] => false
  | c :: r :: rest => (c == '\\' && r == 'r') || hasBSr (r :: rest)

/-- The string form of removeBSr: the Go expression
strings.Replace(s, "\x5cr", "", -1) used in certificateResource.Read. -/
def stripBackslashR (s : String) : String :=
  String.mk (removeBSr s.data)

/-- Embeds the attr computation at the top of certificateResource.Create:
"" unless plan.Attributes is neither null nor unknown. -/
def certificateResource.createAttr (plan : certificateCreateModel) : String :=
  if !plan.Attributes.isNull && !plan.Attributes.isUnknown then
    plan.Attributes.valueString
  else ""

/-- Embeds certificateResource.Create. The plan is read, one
RequestCertificate call is made with the plan CSR, template and attributes;
on error a diagnostic is added and the function returns without setting
state; on success the plan is completed with the returned identifier,
certificate, chain and the timestamp (time.Now().Format(time.RFC850),
passed here as the parameter now) and set as state. -/
def certificateResource.Create (c : ADCSClient) (plan : certificateCreateModel)
    (now : String) : Response certificateCreateModel × List RemoteCall :=
  let attr := certificateResource.createAttr plan
  let csr := plan.CSR.valueString
  let tmpl := plan.Template.valueString
  match c.RequestCertificate csr tmpl attr with
  | .error err =>
      ({ state := none,
         diagnostics := [("Error creating certificate from singing request",
           "Could not create certificate, unexpected error: " ++ err)] },
       [RemoteCall.requestCertificate csr tmpl attr])
  | .ok certificates =>
      ({ state := some { plan with
            ID := TFString.value certificates.ID,
            CertificateB64 := TFString.value certificates.CertificateB64,
            CertificateChainB64 := TFString.value certificates.CertificateChainB64,
            LastUpdated := TFString.value now },
         diagnostics := [] },
       [RemoteCall.requestCertificate csr tmpl attr])

/-- Embeds certificateResource.Read. One RetrieveCertificates call with the
stored identifier; on error a diagnostic whose detail appends the client
error; on success the state is overwritten with the returned identifier and
the certificate and chain with every backslash-r sequence removed. -/
def certificateResource.Read (c : ADCSClient) (state : certificateCreateModel) :
    Response certificateCreateModel × List RemoteCall :=
  let reqID := state.ID.valueString
  match c.RetrieveCertificates reqID with
  | .error err =>
      ({ state := none,
         diagnostics := [("Error Reading Certificate",
           "Could not read Certificate ID " ++ state.ID.valueString ++ ":" ++ err)] },
       [RemoteCall.retrieveCertificates reqID])
  | .ok certificates =>
      ({ state := some { state with
            ID := TFString.value certificates.ID,
            CertificateB64 := TFString.value (stripBackslashR certificates.CertificateB64),
            CertificateChainB64 := TFString.value (stripBackslashR certificates.CertificateChainB64) },
         diagnostics := [] },
       [RemoteCall.retrieveCertificates reqID])

/-- Embeds certificateResource.Update: the Go body is empty, so the
pre-populated response state is left untouched, no diagnostics are added and
no remote call is made. -/
def certificateResource.Update (_c : ADCSClient)
    (respState : certificateCreateModel) :
    Response certificateCreateModel × List RemoteCall :=
  ({ state := some respState, diagnostics := [] }, [])

/-- Embeds certificateDataSource.Read. One RetrieveCertificates call with
the configured identifier (no validation of it); the error summary is
fmt.Sprintf("Unable to Read certificates for %d", ptr-to-reqID), whose
rendering of the pointer under the %d verb depends on a runtime address and
is passed here as the parameter ptrRender; on success the returned values
are stored unchanged. -/
def certificateDataSource.Read (c : ADCSClient) (data : certificateModel)
    (ptrRender : String) : Response certificateModel × List RemoteCall :=
  let reqID := data.ID.valueString
  match c.RetrieveCertificates reqID with
  | .error err =>
      ({ state := none,
         diagnostics := [("Unable to Read certificates for " ++ ptrRender, err)] },
       [RemoteCall.retrieveCertificates reqID])
  | .ok certificates =>
      ({ state := some { ID := TFString.value certificates.ID,
                         CertificateB64 := TFString.value certificates.CertificateB64,
                         CertificateChainB64 := TFString.value certificates.CertificateChainB64 },
         diagnostics := [] },
       [RemoteCall.retrieveCertificates reqID])

/-- Embeds MicrosoftADCSProviderModel of the provider. -/
structure MicrosoftADCSProviderModel where
  Host : TFString
  Username : TFString
  Password : TFString
  Krb5Conf : TFString
  Ntlm : TFBool
deriving DecidableEq, Repr

/-- The process environment as the provider observes it: os.Getenv for each
variable, "" when unset. -/
structure Env where
  ADCS_HOST : String
  ADCS_USERNAME : String
  ADCS_PASSWORD : String
  ADCS_KRB5CONF : String
deriving DecidableEq, Repr

/-- Embeds client.ClientConfig, the argument of client.NewClient. -/
structure ClientConfig where
  Host : String
  Username : String
  Password : String
  Krb5Conf : String
  Ntlm : Bool
deriving DecidableEq, Repr

/-- The outcome of MicrosoftADCSProvider.Configure: the diagnostics added,
the argument of the client.NewClient call when one was made, and whether the
client was handed to resources and data sources. -/
structure ConfigureResult where
  diagnostics : List (String × String)
  newClientCalledWith : Option ClientConfig
  clientConfigured : Bool
deriving DecidableEq, Repr

/-- The unknown-host diagnostic of Configure. -/
def unknownHostDiag : String × String :=
  ("Unknown Active Directory Certificate Services Host",
   "The provider cannot create the ADCS API client as there is an unknown configuration value for the ADCS host. " ++
   "Either target apply the source of the value first, set the value statically in the configuration, or use the ADCS_HOST environment variable.")

/-- The unknown-username diagnostic of Configure. -/
def unknownUsernameDiag : String × String :=
  ("Unknown Active Directory Certificate Services Username",
   "The provider cannot create the ADCS API client as there is an unknown configuration value for the ADCS username. " ++
   "Either target apply the source of the value first, set the value statically in the configuration, or use the ADCS_USERNAME environment variable.")

/-- The unknown-password diagnostic of Configure. -/
def unknownPasswordDiag : String × String :=
  ("Unknown Active Directory Certificate Services Password",
   "The provider cannot create the ADCS API client as there is an unknown configuration value for the ADCS password. " ++
   "Either target apply the source of the value first, set the value statically in the configuration, or use the ADCS_PASSWORD environment variable.")

/-- The missing-host diagnostic of Configure. -/
def missingHostDiag : String × String :=
  ("Missing Active Directory Certificate Services Host",
   "The provider cannot create the ADCS API client as there is a missing or empty value for the ADCS API host. " ++
   "Set the host value in the configuration or use the ADCS_HOST environment variable. " ++
   "If either is already set, ensure the value is not empty.")

/-- The missing-username diagnostic of Configure. -/
def missingUsernameDiag : String × String :=
  ("Missing Active Directory Certificate Services Username",
   "The provider cannot create the ADCS API client as there is a missing or empty value for the ADCS username. " ++
   "Set the username value in the configuration or use the ADCS_USERNAME environment variable. " ++
   "If either is already set, ensure the value is not empty.")

/-- The missing-password diagnostic of Configure. -/
def missingPasswordDiag : String × String :=
  ("Missing Active Directory Certificate Services Password",
   "The provider cannot create the ADCS API client as there is a missing or empty value for the ADCS password. " ++
   "Set the password value in the configuration or use the ADCS_PASSWORD environment variable. " ++
   "If either is already set, ensure the value is not empty.")

/-- The NewClient-failure diagnostic of Configure, with the client error
appended. -/
def newClientErrDiag (err : String) : String × String :=
  ("Unable to Create Active Directory Certificate Services API Client",
   "An unexpected error occurred when creating the Active Directory Certificate Services API client. " ++
   "If the error is not clear, please contact the provider developers.\n\n" ++
   "ADCS Client Error: " ++ err)

/-- Embeds the resolution block of Configure: each of host, username,
password and krb5conf defaults to its environment variable but is overridden
by the configuration value when that is not null; use_ntlm is read with
ValueBool. -/
def MicrosoftADCSProvider.resolveClientConfig
    (config : MicrosoftADCSProviderModel) (env : Env) : ClientConfig :=
  { Host := if !config.Host.isNull then config.Host.valueString else env.ADCS_HOST
    Username := if !config.Username.isNull then config.Username.valueString else env.ADCS_USERNAME
    Password := if !config.Password.isNull then config.Password.valueString else env.ADCS_PASSWORD
    Krb5Conf := if !config.Krb5Conf.isNull then config.Krb5Conf.valueString else env.ADCS_KRB5CONF
    Ntlm := config.Ntlm.valueBool }

/-- Embeds MicrosoftADCSProvider.Configure. Unknown host, username or
password each add a diagnostic and abort before resolution; then values are
resolved against the environment; empty host, username or password each add
a diagnostic and abort before client.NewClient; otherwise NewClient is
called once on the resolved ClientConfig and, on success, the client is
handed to data sources and resources. -/
def MicrosoftADCSProvider.Configure (config : MicrosoftADCSProviderModel)
    (env : Env) (newClient : ClientConfig → Except String Unit) : ConfigureResult :=
  let unknownDiags :=
    (if config.Host.isUnknown then [unknownHostDiag] else []) ++
    (if config.Username.isUnknown then [unknownUsernameDiag] else []) ++
    (if config.Password.isUnknown then [unknownPasswordDiag] else [])
  if unknownDiags = [] then
    let cc := MicrosoftADCSProvider.resolveClientConfig config env
    let missingDiags :=
      (if cc.Host = "" then [missingHostDiag] else []) ++
      (if cc.Username = "" then [missingUsernameDiag] else []) ++
      (if cc.Password = "" then [missingPasswordDiag] else [])
    if missingDiags = [] then
      match newClient cc with
      | .error err =>
          { diagnostics := [newClientErrDiag err],
            newClientCalledWith := some cc, clientConfigured := false }
      | .ok _ =>
          { diagnostics := [], newClientCalledWith := some cc,
            clientConfigured := true }
    else
      { diagnostics := missingDiags, newClientCalledWith := none,
        clientConfigured := false }
  else
    { diagnostics := unknownDiags, newClientCalledWith := none,
      clientConfigured := false }

/-- Modelled from the spec: one character of the standard base64 alphabet
decoded to its 6-bit value (the repository contains no base64 decoder; this
definition exists only to compare the spec's claimed decode step with what
Create actually transmits). -/
def base64DecodeChar (c : Char) : Option Nat :=
  if 'A' ≤ c ∧ c ≤ 'Z' then some (c.toNat - 65)
  else if 'a' ≤ c ∧ c ≤ 'z' then some (c.toNat - 97 + 26)
  else if '0' ≤ c ∧ c ≤ '9' then some (c.toNat - 48 + 52)
  else if c = '+' then some 62
  else if c = '/' then some 63
  else none

/-- Modelled from the spec: standard base64 decoding of a character list to
byte values, processing four characters at a time with trailing '='
padding. -/
def base64DecodeChars : List Char → Option (List Nat)
  | [] => some []
  | a :: b :: c :: d :: rest => do
      let va ← base64DecodeChar a
      let vb ← base64DecodeChar b
      if c = '=' ∧ d = '=' ∧ rest = [] then
        some [va * 4 + vb / 16]
      else do
        let vc ← base64DecodeChar c
        if d = '=' ∧ rest = [] then
          some [va * 4 + vb / 16, vb % 16 * 16 + vc / 4]
        else do
          let vd ← base64DecodeChar d
          let tail ← base64DecodeChars rest
          some ((va * 4 + vb / 16) :: (vb % 16 * 16 + vc / 4) :: (vc % 4 * 64 + vd) :: tail)
  | _ => none

/-- Modelled from the spec: standard base64 decoding of a string, the
decoded bytes read back as a string. -/
def base64Decode (s : String) : Option String :=
  (base64DecodeChars s.data).map (fun bs => String.mk (bs.map Char.ofNat))

/-- Client fixture: both operations succeed with a fixed certificate. -/
def okClient (certs : Certificates) : ADCSClient :=
  { RequestCertificate := fun _ _ _ => .ok certs
    RetrieveCertificates := fun _ => .ok certs }

/-- Client fixture: both operations fail with a fixed error message. -/
def errClient (msg : String) : ADCSClient :=
  { RequestCertificate := fun _ _ _ => .error msg
    RetrieveCertificates := fun _ => .error msg }

/-- Certificate fixture whose text fields contain the two-character
backslash-r sequence. -/
def testCerts : Certificates :=
  { ID := "525135"
    CertificateB64 := "MIIB\\rAAA"
    CertificateChainB64 := "MIIC\\rBBB" }

/-- Plan fixture for Create: a base64 CSR string and the User template. -/
def testPlan : certificateCreateModel :=
  { ID := TFString.null, Attributes := TFString.null,
    CSR := TFString.value "aGk=", Template := TFString.value "User",
    CertificateB64 := TFString.null, CertificateChainB64 := TFString.null,
    LastUpdated := TFString.null }

/-- Data-source configuration fixture with a non-empty identifier. -/
def testData : certificateModel :=
  { ID := TFString.value "525135", CertificateB64 := TFString.null,
    CertificateChainB64 := TFString.null }

/-- Data-source configuration fixture with an empty identifier. -/
def emptyIdData : certificateModel :=
  { ID := TFString.value "", CertificateB64 := TFString.null,
    CertificateChainB64 := TFString.null }

/-- Resource state fixture holding the identifier of testCerts. -/
def testState : certificateCreateModel :=
  { testPlan with ID := TFString.value "525135" }

/-- Provider configuration fixture with every attribute null. -/
def nullProviderConfig : MicrosoftADCSProviderModel :=
  { Host := TFString.null, Username := TFString.null,
    Password := TFString.null, Krb5Conf := TFString.null, Ntlm := TFBool.null }

/-- Provider configuration fixture with every attribute set explicitly. -/
def explicitProviderConfig : MicrosoftADCSProviderModel :=
  { Host := TFString.value "confhost", Username := TFString.value "confuser",
    Password := TFString.value "confpass", Krb5Conf := TFString.value "confkrb",
    Ntlm := TFBool.value true }

/-- Environment fixture with every variable unset. -/
def emptyEnv : Env :=
  { ADCS_HOST := "", ADCS_USERNAME := "", ADCS_PASSWORD := "", ADCS_KRB5CONF := "" }

/-- Environment fixture with every variable set. -/
def testEnv : Env :=
  { ADCS_HOST := "envhost", ADCS_USERNAME := "envuser",
    ADCS_PASSWORD := "envpass", ADCS_KRB5CONF := "envkrb" }

/-- NewClient fixture that always succeeds. -/
def okNewClient : ClientConfig → Except String Unit := fun _ => .ok ()

theorem removeBSr_length_le : ∀ l : List Char, (removeBSr l).length ≤ l.length
  | [] => Nat.le_refl _
  | [_] => Nat.le_refl _
  | c :: r :: rest => by
      by_cases h : (c == '\\' && r == 'r') = true
      · have ih := removeBSr_length_le rest
        simp only [removeBSr, if_pos h, List.length_cons]
        omega
      · have ih := removeBSr_length_le (r :: rest)
        simp only [removeBSr, if_neg h, List.length_cons] at ih ⊢
        omega

theorem removeBSr_length_lt :
    ∀ l : List Char, hasBSr l = true → (removeBSr l).length < l.length
  | [], h => by simp [hasBSr] at h
  | [_], h => by simp [hasBSr] at h
  | c :: r :: rest, h => by
      by_cases hcr : (c == '\\' && r == 'r') = true
      · have ih := removeBSr_length_le rest
        simp only [removeBSr, if_pos hcr, List.length_cons]
        omega
      · have h' : hasBSr (r :: rest) = true := by
          simp only [hasBSr, Bool.or_eq_true] at h
          exact h.resolve_left hcr
        have ih := removeBSr_length_lt (r :: rest) h'
        simp only [removeBSr, if_neg hcr, List.length_cons] at ih ⊢
        omega

theorem stripBackslashR_ne (s : String) (h : hasBSr s.data = true) :
    stripBackslashR s ≠ s := by
  intro heq
  have hlt : (removeBSr s.data).length < s.data.length := removeBSr_length_lt _ h
  have hd : removeBSr s.data = s.data := congrArg String.data heq
  rw [hd] at hlt
  omega

/-- C1: for every successful Create, the state persisted afterwards is the
plan completed with exactly the identifier, certificate and certificate
chain returned by RequestCertificate, stored verbatim, plus the creation
timestamp in last_updated, and no error diagnostic is added. -/
theorem C1_create_persists_request_result (c : ADCSClient)
    (plan : certificateCreateModel) (now : String) (certs : Certificates)
    (h : c.RequestCertificate plan.CSR.valueString plan.Template.valueString
      (certificateResource.createAttr plan) = Except.ok certs) :
    (certificateResource.Create c plan now).1.state = some
      { plan with
        ID := TFString.value certs.ID,
        CertificateB64 := TFString.value certs.CertificateB64,
        CertificateChainB64 := TFString.value certs.CertificateChainB64,
        LastUpdated := TFString.value now } ∧
    (certificateResource.Create c plan now).1.diagnostics = [] := by
  simp [certificateResource.Create, h]

/-- C1 witness: Create against a client answering with testCerts persists
exactly testCerts plus the timestamp. -/
theorem C1_witness :
    (certificateResource.Create (okClient testCerts) testPlan "ts").1.state = some
      { testPlan with
        ID := TFString.value testCerts.ID,
        CertificateB64 := TFString.value testCerts.CertificateB64,
        CertificateChainB64 := TFString.value testCerts.CertificateChainB64,
        LastUpdated := TFString.value "ts" } ∧
    (certificateResource.Create (okClient testCerts) testPlan "ts").1.diagnostics = [] :=
  C1_create_persists_request_result (okClient testCerts) testPlan "ts" testCerts rfl

/-- C2: for every Create in which RequestCertificate fails, no state is
persisted, the operation terminates with the single creation error
diagnostic, and exactly one remote call was made — no retry. -/
theorem C2_create_error_terminal (c : ADCSClient)
    (plan : certificateCreateModel) (now : String) (e : String)
    (h : c.RequestCertificate plan.CSR.valueString plan.Template.valueString
      (certificateResource.createAttr plan) = Except.error e) :
    (certificateResource.Create c plan now).1.state = none ∧
    (certificateResource.Create c plan now).1.diagnostics =
      [("Error creating certificate from singing request",
        "Could not create certificate, unexpected error: " ++ e)] ∧
    (certificateResource.Create c plan now).2 =
      [RemoteCall.requestCertificate plan.CSR.valueString
        plan.Template.valueString (certificateResource.createAttr plan)] := by
  simp [certificateResource.Create, h]

/-- C2 witness: Create against an always-failing client sets no state, adds
the creation error and makes exactly one call. -/
theorem C2_witness :
    (certificateResource.Create (errClient "boom") testPlan "ts").1.state = none ∧
    (certificateResource.Create (errClient "boom") testPlan "ts").1.diagnostics =
      [("Error creating certificate from singing request",
        "Could not create certificate, unexpected error: " ++ "boom")] ∧
    (certificateResource.Create (errClient "boom") testPlan "ts").2 =
      [RemoteCall.requestCertificate testPlan.CSR.valueString
        testPlan.Template.valueString (certificateResource.createAttr testPlan)] :=
  C2_create_error_terminal (errClient "boom") testPlan "ts" "boom" rfl

/-- C3: for a certificate returned by RetrieveCertificates, the resource
Read stores the certificate and chain with every backslash-r sequence
removed while the data-source Read stores them unchanged; when the returned
certificate text contains that sequence the two stored values differ. -/
theorem C3_read_paths_diverge (c : ADCSClient)
    (rstate : certificateCreateModel) (ddata : certificateModel)
    (ptr id : String) (certs : Certificates)
    (hrid : rstate.ID.valueString = id) (hdid : ddata.ID.valueString = id)
    (hret : c.RetrieveCertificates id = Except.ok certs)
    (hbsr : hasBSr certs.CertificateB64.data = true) :
    (certificateResource.Read c rstate).1.state = some
      { rstate with
        ID := TFString.value certs.ID,
        CertificateB64 := TFString.value (stripBackslashR certs.CertificateB64),
        CertificateChainB64 := TFString.value (stripBackslashR certs.CertificateChainB64) } ∧
    (certificateDataSource.Read c ddata ptr).1.state = some
      { ID := TFString.value certs.ID,
        CertificateB64 := TFString.value certs.CertificateB64,
        CertificateChainB64 := TFString.value certs.CertificateChainB64 } ∧
    TFString.value (stripBackslashR certs.CertificateB64) ≠
      TFString.value certs.CertificateB64 := by
  refine ⟨?_, ?_, ?_⟩
  · simp [certificateResource.Read, hrid, hret]
  · simp [certificateDataSource.Read, hdid, hret]
  · simp only [ne_eq, TFString.value.injEq]
    exact stripBackslashR_ne _ hbsr

/-- C3 witness: with the backslash-r-bearing testCerts, the resource path
stores the stripped text, the data-source path the raw text, and the two
differ. -/
theorem C3_witness :
    (certificateResource.Read (okClient testCerts) testState).1.state = some
      { testState with
        ID := TFString.value testCerts.ID,
        CertificateB64 := TFString.value (stripBackslashR testCerts.CertificateB64),
        CertificateChainB64 := TFString.value (stripBackslashR testCerts.CertificateChainB64) } ∧
    (certificateDataSource.Read (okClient testCerts) testData "p").1.state = some
      { ID := TFString.value testCerts.ID,
        CertificateB64 := TFString.value testCerts.CertificateB64,
        CertificateChainB64 := TFString.value testCerts.CertificateChainB64 } ∧
    TFString.value (stripBackslashR testCerts.CertificateB64) ≠
      TFString.value testCerts.CertificateB64 :=
  C3_read_paths_diverge (okClient testCerts) testState testData "p" "525135"
    testCerts rfl rfl rfl (by decide)

/-- C4: for each of host, username, password and krb5conf, an explicit
(non-null) configuration value overrides the corresponding environment
variable in the resolved client configuration, and a null configuration
value falls back to the environment variable. -/
theorem C4_explicit_overrides_env (config : MicrosoftADCSProviderModel)
    (env : Env) :
    (∀ s, config.Host = TFString.value s →
      (MicrosoftADCSProvider.resolveClientConfig config env).Host = s) ∧
    (config.Host = TFString.null →
      (MicrosoftADCSProvider.resolveClientConfig config env).Host = env.ADCS_HOST) ∧
    (∀ s, config.Username = TFString.value s →
      (MicrosoftADCSProvider.resolveClientConfig config env).Username = s) ∧
    (config.Username = TFString.null →
      (MicrosoftADCSProvider.resolveClientConfig config env).Username = env.ADCS_USERNAME) ∧
    (∀ s, config.Password = TFString.value s →
      (MicrosoftADCSProvider.resolveClientConfig config env).Password = s) ∧
    (config.Password = TFString.null →
      (MicrosoftADCSProvider.resolveClientConfig config env).Password = env.ADCS_PASSWORD) ∧
    (∀ s, config.Krb5Conf = TFString.value s →
      (MicrosoftADCSProvider.resolveClientConfig config env).Krb5Conf = s) ∧
    (config.Krb5Conf = TFString.null →
      (MicrosoftADCSProvider.resolveClientConfig config env).Krb5Conf = env.ADCS_KRB5CONF) := by
  refine ⟨?_, ?_, ?_, ?_, ?_, ?_, ?_, ?_⟩ <;>
    first
      | (intro s h
         simp [MicrosoftADCSProvider.resolveClientConfig, h, TFString.isNull,
           TFString.valueString])
      | (intro h
         simp [MicrosoftADCSProvider.resolveClientConfig, h, TFString.isNull,
           TFString.valueString])

/-- C4 witness: with every attribute explicit the resolved values are the
explicit ones although the environment is fully set; with every attribute
null the resolved values are the environment ones. -/
theorem C4_witness :
    (MicrosoftADCSProvider.resolveClientConfig explicitProviderConfig testEnv).Host = "confhost" ∧
    (MicrosoftADCSProvider.resolveClientConfig explicitProviderConfig testEnv).Username = "confuser" ∧
    (MicrosoftADCSProvider.resolveClientConfig explicitProviderConfig testEnv).Password = "confpass" ∧
    (MicrosoftADCSProvider.resolveClientConfig explicitProviderConfig testEnv).Krb5Conf = "confkrb" ∧
    (MicrosoftADCSProvider.resolveClientConfig nullProviderConfig testEnv).Host = testEnv.ADCS_HOST ∧
    (MicrosoftADCSProvider.resolveClientConfig nullProviderConfig testEnv).Username = testEnv.ADCS_USERNAME ∧
    (MicrosoftADCSProvider.resolveClientConfig nullProviderConfig testEnv).Password = testEnv.ADCS_PASSWORD ∧
    (MicrosoftADCSProvider.resolveClientConfig nullProviderConfig testEnv).Krb5Conf = testEnv.ADCS_KRB5CONF :=
  ⟨(C4_explicit_overrides_env explicitProviderConfig testEnv).1 "confhost" rfl,
   (C4_explicit_overrides_env explicitProviderConfig testEnv).2.2.1 "confuser" rfl,
   (C4_explicit_overrides_env explicitProviderConfig testEnv).2.2.2.2.1 "confpass" rfl,
   (C4_explicit_overrides_env explicitProviderConfig testEnv).2.2.2.2.2.2.1 "confkrb" rfl,
   (C4_explicit_overrides_env nullProviderConfig testEnv).2.1 rfl,
   (C4_explicit_overrides_env nullProviderConfig testEnv).2.2.2.1 rfl,
   (C4_explicit_overrides_env nullProviderConfig testEnv).2.2.2.2.2.1 rfl,
   (C4_explicit_overrides_env nullProviderConfig testEnv).2.2.2.2.2.2.2 rfl⟩

/-- C5: when, after environment fallback, host, username or password resolve
to "", Configure reports one distinct diagnostic per missing field, all in a
single pass, and NewClient is never invoked. -/
theorem C5_missing_fields_block_client (config : MicrosoftADCSProviderModel)
    (env : Env) (newClient : ClientConfig → Except String Unit)
    (hu1 : config.Host.isUnknown = false)
    (hu2 : config.Username.isUnknown = false)
    (hu3 : config.Password.isUnknown = false)
    (hmiss : (MicrosoftADCSProvider.resolveClientConfig config env).Host = "" ∨
             (MicrosoftADCSProvider.resolveClientConfig config env).Username = "" ∨
             (MicrosoftADCSProvider.resolveClientConfig config env).Password = "") :
    (MicrosoftADCSProvider.Configure config env newClient).newClientCalledWith = none ∧
    (MicrosoftADCSProvider.Configure config env newClient).clientConfigured = false ∧
    (MicrosoftADCSProvider.Configure config env newClient).diagnostics =
      (if (MicrosoftADCSProvider.resolveClientConfig config env).Host = ""
        then [missingHostDiag] else []) ++
      (if (MicrosoftADCSProvider.resolveClientConfig config env).Username = ""
        then [missingUsernameDiag] else []) ++
      (if (MicrosoftADCSProvider.resolveClientConfig config env).Password = ""
        then [missingPasswordDiag] else []) ∧
    (MicrosoftADCSProvider.Configure config env newClient).diagnostics ≠ [] ∧
    missingHostDiag ≠ missingUsernameDiag ∧
    missingHostDiag ≠ missingPasswordDiag ∧
    missingUsernameDiag ≠ missingPasswordDiag := by
  have hne :
      ((if (MicrosoftADCSProvider.resolveClientConfig config env).Host = ""
          then [missingHostDiag] else []) ++
        (if (MicrosoftADCSProvider.resolveClientConfig config env).Username = ""
          then [missingUsernameDiag] else []) ++
        (if (MicrosoftADCSProvider.resolveClientConfig config env).Password = ""
          then [missingPasswordDiag] else [])) ≠ [] := by
    rcases hmiss with h | h | h <;> simp [h]
  have hres :
      MicrosoftADCSProvider.Configure config env newClient =
        { diagnostics :=
            (if (MicrosoftADCSProvider.resolveClientConfig config env).Host = ""
              then [missingHostDiag] else []) ++
            (if (MicrosoftADCSProvider.resolveClientConfig config env).Username = ""
              then [missingUsernameDiag] else []) ++
            (if (MicrosoftADCSProvider.resolveClientConfig config env).Password = ""
              then [missingPasswordDiag] else []),
          newClientCalledWith := none, clientConfigured := false } := by
    unfold MicrosoftADCSProvider.Configure
    rw [hu1, hu2, hu3]
    simp only [Bool.false_eq_true, if_false, List.nil_append, List.append_nil,
      if_pos rfl]
    rw [if_neg hne]
    simp
  refine ⟨by rw [hres], by rw [hres], by rw [hres], ?_, by decide, by decide, by decide⟩
  rw [hres]
  exact hne

/-- C5 witness: with every attribute null and every environment variable
unset, Configure reports the three missing-field diagnostics and never calls
NewClient. -/
theorem C5_witness :
    (MicrosoftADCSProvider.Configure nullProviderConfig emptyEnv okNewClient).newClientCalledWith = none ∧
    (MicrosoftADCSProvider.Configure nullProviderConfig emptyEnv okNewClient).clientConfigured = false ∧
    (MicrosoftADCSProvider.Configure nullProviderConfig emptyEnv okNewClient).diagnostics =
      (if (MicrosoftADCSProvider.resolveClientConfig nullProviderConfig emptyEnv).Host = ""
        then [missingHostDiag] else []) ++
      (if (MicrosoftADCSProvider.resolveClientConfig nullProviderConfig emptyEnv).Username = ""
        then [missingUsernameDiag] else []) ++
      (if (MicrosoftADCSProvider.resolveClientConfig nullProviderConfig emptyEnv).Password = ""
        then [missingPasswordDiag] else []) ∧
    (MicrosoftADCSProvider.Configure nullProviderConfig emptyEnv okNewClient).diagnostics ≠ [] ∧
    missingHostDiag ≠ missingUsernameDiag ∧
    missingHostDiag ≠ missingPasswordDiag ∧
    missingUsernameDiag ≠ missingPasswordDiag :=
  C5_missing_fields_block_client nullProviderConfig emptyEnv okNewClient
    rfl rfl rfl (Or.inl rfl)

/-- C6 (amended): for every Create, the value passed to RequestCertificate
is the configured certificate_signing_request attribute verbatim — the
provider performs no base64 decoding (decoding, when wanted, happens in the
Terraform configuration before the value reaches the provider). -/
theorem C6_csr_transmitted_verbatim (c : ADCSClient)
    (plan : certificateCreateModel) (now : String) :
    (certificateResource.Create c plan now).2 =
      [RemoteCall.requestCertificate plan.CSR.valueString
        plan.Template.valueString (certificateResource.createAttr plan)] := by
  simp only [certificateResource.Create]
  cases c.RequestCertificate plan.CSR.valueString plan.Template.valueString
    (certificateResource.createAttr plan) <;> rfl

/-- C6 counterexample: with the configured CSR attribute "aGk=", Create
invokes RequestCertificate with "aGk=" itself; the base64 decoding of
"aGk=" is "hi", and the call made is not the call with "hi" — so the value
transmitted is not the base64 decoding of the attribute. -/
theorem C6_counterexample :
    (certificateResource.Create (okClient testCerts) testPlan "ts").2 =
      [RemoteCall.requestCertificate "aGk=" "User" ""] ∧
    base64Decode "aGk=" = some "hi" ∧
    (certificateResource.Create (okClient testCerts) testPlan "ts").2 ≠
      [RemoteCall.requestCertificate "hi" "User" ""] := by
  refine ⟨rfl, by decide, by decide⟩

/-- C7: Update makes no remote call, adds no diagnostic and leaves every
state field — in particular certificate_b64 and certificate_chain_b64 —
exactly as it was. -/
theorem C7_update_is_noop (c : ADCSClient) (st : certificateCreateModel) :
    (certificateResource.Update c st).2 = [] ∧
    (certificateResource.Update c st).1.state = some st ∧
    (certificateResource.Update c st).1.diagnostics = [] ∧
    ((certificateResource.Update c st).1.state.map
      certificateCreateModel.CertificateB64) = some st.CertificateB64 ∧
    ((certificateResource.Update c st).1.state.map
      certificateCreateModel.CertificateChainB64) = some st.CertificateChainB64 :=
  ⟨rfl, rfl, rfl, rfl, rfl⟩

/-- C8: when RetrieveCertificates fails in the data-source Read, no state is
set, exactly one remote call was made (no retry), and the single diagnostic
carries the underlying client error message verbatim as its detail,
alongside the wrapper summary. -/
theorem C8_datasource_read_error (c : ADCSClient) (data : certificateModel)
    (ptr e : String)
    (h : c.RetrieveCertificates data.ID.valueString = Except.error e) :
    (certificateDataSource.Read c data ptr).1.state = none ∧
    (certificateDataSource.Read c data ptr).1.diagnostics =
      [("Unable to Read certificates for " ++ ptr, e)] ∧
    (certificateDataSource.Read c data ptr).2 =
      [RemoteCall.retrieveCertificates data.ID.valueString] := by
  simp [certificateDataSource.Read, h]

/-- C8 witness: a failing lookup sets no state and surfaces the client
error verbatim as the diagnostic detail. -/
theorem C8_witness :
    (certificateDataSource.Read (errClient "lookup failed") testData "p").1.state = none ∧
    (certificateDataSource.Read (errClient "lookup failed") testData "p").1.diagnostics =
      [("Unable to Read certificates for " ++ "p", "lookup failed")] ∧
    (certificateDataSource.Read (errClient "lookup failed") testData "p").2 =
      [RemoteCall.retrieveCertificates testData.ID.valueString] :=
  C8_datasource_read_error (errClient "lookup failed") testData "p"
    "lookup failed" rfl

/-- C9 (amended): the data-source Read enforces no non-emptiness constraint
on id: whatever value the id attribute holds — the empty string included —
is passed unchanged to RetrieveCertificates as the one remote call. -/
theorem C9_id_delegated_without_validation (c : ADCSClient)
    (data : certificateModel) (ptr : String) :
    (certificateDataSource.Read c data ptr).2 =
      [RemoteCall.retrieveCertificates data.ID.valueString] := by
  simp only [certificateDataSource.Read]
  cases c.RetrieveCertificates data.ID.valueString <;> rfl

/-- C9 counterexample: a data-source Read whose configured id is the empty
string delegates the lookup with the empty identifier and completes as a
successful lookup — no non-empty input constraint is enforced before the
remote call. -/
theorem C9_counterexample :
    (certificateDataSource.Read (okClient testCerts) emptyIdData "p").2 =
      [RemoteCall.retrieveCertificates ""] ∧
    (certificateDataSource.Read (okClient testCerts) emptyIdData "p").1.diagnostics = [] ∧
    (certificateDataSource.Read (okClient testCerts) emptyIdData "p").1.state =
      some { ID := TFString.value testCerts.ID,
             CertificateB64 := TFString.value testCerts.CertificateB64,
             CertificateChainB64 := TFString.value testCerts.CertificateChainB64 } :=
  ⟨rfl, rfl, rfl⟩

/-- C10: Create stores the certificate text verbatim while the resource Read
strips backslash-r sequences, so when the remote certificate text contains
such a sequence — the remote certificate itself unchanged between the two
calls — a Read immediately after Create rewrites the stored certificate
field: Read after Create is not a fixed point of the stored state. -/
theorem C10_read_after_create_rewrites (c : ADCSClient)
    (plan : certificateCreateModel) (now : String) (certs : Certificates)
    (hreq : c.RequestCertificate plan.CSR.valueString plan.Template.valueString
      (certificateResource.createAttr plan) = Except.ok certs)
    (hret : c.RetrieveCertificates certs.ID = Except.ok certs)
    (hbsr : hasBSr certs.CertificateB64.data = true) :
    ∃ s1, (certificateResource.Create c plan now).1.state = some s1 ∧
      s1.CertificateB64 = TFString.value certs.CertificateB64 ∧
      ∃ s2, (certificateResource.Read c s1).1.state = some s2 ∧
        s2.CertificateB64 = TFString.value (stripBackslashR certs.CertificateB64) ∧
        s2.CertificateB64 ≠ s1.CertificateB64 := by
  refine ⟨{ plan with
      ID := TFString.value certs.ID,
      CertificateB64 := TFString.value certs.CertificateB64,
      CertificateChainB64 := TFString.value certs.CertificateChainB64,
      LastUpdated := TFString.value now }, ?_, rfl, ?_⟩
  · simp [certificateResource.Create, hreq]
  · refine ⟨{ plan with
        ID := TFString.value certs.ID,
        CertificateB64 := TFString.value (stripBackslashR certs.CertificateB64),
        CertificateChainB64 := TFString.value (stripBackslashR certs.CertificateChainB64),
        LastUpdated := TFString.value now }, ?_, rfl, ?_⟩
    · simp [certificateResource.Read, TFString.valueString, hret]
    · simp only [ne_eq, TFString.value.injEq]
      exact stripBackslashR_ne _ hbsr

/-- C10 witness: with testCerts, whose certificate text contains a
backslash-r sequence, the state stored by Create is rewritten by the
immediately following Read. -/
theorem C10_witness :
    ∃ s1, (certificateResource.Create (okClient testCerts) testPlan "ts").1.state = some s1 ∧
      s1.CertificateB64 = TFString.value testCerts.CertificateB64 ∧
      ∃ s2, (certificateResource.Read (okClient testCerts) s1).1.state = some s2 ∧
        s2.CertificateB64 = TFString.value (stripBackslashR testCerts.CertificateB64) ∧
        s2.CertificateB64 ≠ s1.CertificateB64 :=
  C10_read_after_create_rewrites (okClient testCerts) testPlan "ts" testCerts
    rfl rfl (by decide)
